import Mathlib

/-!
Verification of the Perks Browser View (`src/client/src/pages/AllPerks.jsx`).

The page is a single React component with seven pieces of local state
(`perks`, `allMerchants`, `uniqueMerchants`, `searchQuery`, `merchantFilter`,
`loading`, `error`).  We embed that state as a record `ViewState` and embed
each handler / effect body as a pure transition on it.  Network results are
values of `Except ErrResp (List Perk)` (the `catch` branch receives an
`ErrResp`, carrying the optional server message `err?.response?.data?.message`).
Requests issued to `GET /perks/all` are embedded as a `Request` record holding
the two optional query parameters.  The debounce `useEffect` is embedded as a
small timer machine (`DebounceState`) in which `setTimeout` registers a timer
with a fresh id and the React cleanup cancels, by id, the timer the previous
effect run registered.  Two React subtleties are modelled explicitly: the
debounce effect also runs on mount (scheduling an uncancelled unfiltered
fetch when the user is quiet), and the `loadAllPerks` a timer invokes reads
the `allMerchants` value captured by the closure of the render that created
it, not the state current when the fetch settles — `loadComplete` therefore
takes that captured list as an argument.
-/

namespace AllPerks

/-- A perk as delivered by the backend (`_id`, `title`, `merchant`,
`discountPercent`).  `merchant` is optional; `discountPercent` is a
non-negative number. -/
structure Perk where
  _id : String
  title : String
  merchant : Option String
  discountPercent : Nat
  deriving Repr, DecidableEq

/-- The component-local state of the view, one field per `useState` hook. -/
structure ViewState where
  perks : List Perk
  allMerchants : List String
  uniqueMerchants : List String
  searchQuery : String
  merchantFilter : String
  loading : Bool
  error : String
  deriving Repr, DecidableEq

/-- The initial hook values: empty lists, empty filter strings,
`loading = true`, empty error. -/
def initState : ViewState :=
  { perks := [], allMerchants := [], uniqueMerchants := [],
    searchQuery := "", merchantFilter := "", loading := true, error := "" }

/-- The error value reaching a `catch` branch: `err?.response?.data?.message`
is the optional server-provided message (absent on network errors). -/
structure ErrResp where
  message : Option String
  deriving Repr, DecidableEq

/-- Outcome of a `GET /perks/all` call: on success the `perks` array of the
response body, otherwise the caught error. -/
abbrev FetchResult := Except ErrResp (List Perk)

/-- A request to `GET /perks/all`: the two optional query parameters
(`search`, `merchant`).  `none` means the parameter is omitted. -/
structure Request where
  search : Option String
  merchant : Option String
  deriving Repr, DecidableEq

/-- The parameter-less request issued by `initialLoad`: `api.get('/perks/all')`. -/
def initialRequest : Request := { search := none, merchant := none }

/-- Characters of a string with leading and trailing whitespace removed. -/
def trimChars (cs : List Char) : List Char :=
  ((cs.dropWhile Char.isWhitespace).reverse.dropWhile Char.isWhitespace).reverse

/-- JavaScript `String.prototype.trim`: strip leading and trailing
whitespace.  Embedded over the character list so it is kernel-executable. -/
def jsTrim (s : String) : String := ⟨trimChars s.data⟩

/-- The params object built by `loadAllPerks`:
`search: searchQuery.trim() || undefined, merchant: merchantFilter.trim() || undefined`.
An empty trimmed string is falsy in JS, so the parameter becomes `undefined`
and is omitted from the request. -/
def mkRequest (sq mf : String) : Request :=
  { search := if jsTrim sq = "" then none else some (jsTrim sq),
    merchant := if jsTrim mf = "" then none else some (jsTrim mf) }

/-- First-occurrence deduplication, the behaviour of `[...new Set(xs)]`. -/
def dedupFirst {α : Type} [DecidableEq α] : List α → List α
  | [] => []
  | x :: xs => x :: (dedupFirst xs).filter (fun y => y ≠ x)

/-- The merchant extraction of `initialLoad`:
`perks.map(p => p.merchant).filter(m => m && m.trim())` then `[...new Set(...)]`.
The truthiness filter keeps exactly the present merchants whose trimmed value
is a non-empty string. -/
def deriveMerchants (ps : List Perk) : List String :=
  dedupFirst ((ps.filterMap (fun p => p.merchant)).filter (fun m => jsTrim m ≠ ""))

/-- JavaScript `m || b` for an optional string `m`: `b` whenever `m` is
falsy, that is absent or the empty string. -/
def jsOrElse (m : Option String) (b : String) : String :=
  match m with
  | some s => if s = "" then b else s
  | none => b

/-- The `initialLoad` async body applied to its fetch outcome.  On success it
stores the perks and sets both merchant lists to the derived unique list; on
failure it sets the error to `err?.response?.data?.message || 'Failed to
load perks'` (the fallback also for a present-but-empty message, by JS
falsiness).  The `finally` clause clears `loading` on both paths. -/
def initialLoadApply (s : ViewState) (r : FetchResult) : ViewState :=
  match r with
  | .ok ps =>
      let unique := deriveMerchants ps
      { s with perks := ps, allMerchants := unique, uniqueMerchants := unique,
               loading := false }
  | .error e =>
      { s with error := jsOrElse e.message "Failed to load perks", loading := false }

/-- The synchronous prefix of `loadAllPerks`: `setError('')`, `setLoading(true)`. -/
def loadStart (s : ViewState) : ViewState :=
  { s with error := "", loading := true }

/-- The continuation of `loadAllPerks` once its fetch settles.  On success it
stores the perks and runs `setUniqueMerchants(allMerchants)`, where
`allMerchants` is the value **captured by the closure of the render that
created this `loadAllPerks`** — passed here as `captured`; for the
mount-scheduled debounce run, or any run scheduled before the initial load
resolves, that captured value is the first render's `[]`, not the current
state's list.  On failure it sets the error to
`err?.response?.data?.message || 'Failed to load perks'`.  `finally` clears
`loading`. -/
def loadComplete (captured : List String) (s : ViewState) (r : FetchResult) :
    ViewState :=
  match r with
  | .ok ps =>
      { s with perks := ps, uniqueMerchants := captured, loading := false }
  | .error e =>
      { s with error := jsOrElse e.message "Failed to load perks", loading := false }

/-- A whole `loadAllPerks` run: start, then completion with outcome `r`.
`captured` is the `allMerchants` closure value of the render that created
the running `loadAllPerks` function. -/
def loadAllPerks (captured : List String) (s : ViewState) (r : FetchResult) :
    ViewState :=
  loadComplete captured (loadStart s) r

/-- The request a `loadAllPerks` run issues, built from the current fields. -/
def loadAllPerksRequest (s : ViewState) : Request :=
  mkRequest s.searchQuery s.merchantFilter

/-- `handleReset`: clear both filter fields and restore the full dropdown. -/
def handleReset (s : ViewState) : ViewState :=
  { s with searchQuery := "", merchantFilter := "",
           uniqueMerchants := s.allMerchants }

/-- An observable side effect of a handler or effect body: either a fetch
issued right away, or a fetch scheduled to run after a delay (`setTimeout`). -/
inductive Effect where
  | fetchNow (r : Request)
  | scheduleFetch (delayMs : Nat)
  deriving Repr, DecidableEq

/-- The fetches an effect list performs immediately (scheduled ones excluded). -/
def immediateFetches (effs : List Effect) : List Request :=
  effs.filterMap (fun e => match e with
    | .fetchNow r => some r
    | .scheduleFetch _ => none)

/-- Effects of mounting the component, in declaration order: the `initialLoad`
effect fires its parameter-less fetch at once; the debounce effect — which
React also runs on mount, its deps `[searchQuery, merchantFilter]`
notwithstanding — schedules a 500 ms timer on this first run too. -/
def mountEffects : List Effect :=
  [.fetchNow initialRequest, .scheduleFetch 500]

/-- The request the mount-scheduled debounce timer issues when it fires:
`loadAllPerks` of the first render's closure, whose filter fields are both
the initial empty strings. -/
def mountScheduledRequest : Request :=
  mkRequest initState.searchQuery initState.merchantFilter

/-- Every fetch a quiescent mount (no user input within the 500 ms debounce
window, so the mount-scheduled timer is never cancelled) eventually
performs: the immediate fetches, followed by one fetch per scheduled timer. -/
def mountQuiescentFetches : List Request :=
  immediateFetches mountEffects ++
    mountEffects.filterMap (fun e => match e with
      | .scheduleFetch _ => some mountScheduledRequest
      | .fetchNow _ => none)

/-- Effects of one debounce-effect run (any change of `searchQuery` or
`merchantFilter`): schedule a 500 ms timer, fetch nothing now. -/
def debounceChangeEffects : List Effect := [.scheduleFetch 500]

/-- Effects of `handleSearch` (form submission): call `loadAllPerks()` at
once, with the request built from the current field values. -/
def handleSearchEffects (s : ViewState) : List Effect :=
  [.fetchNow (loadAllPerksRequest s)]

/-- Effects of `handleReset`: it only calls the three setters, no fetch and
no timer. -/
def handleResetEffects : List Effect := []

/-- One rendered result card: the `Link` element with its key, target,
title line, optional merchant line (`perk.merchant &&` — rendered only for a
present, non-empty merchant string) and optional discount badge
(`perk.discountPercent > 0 &&`). -/
structure Card where
  key : String
  link : String
  title : String
  merchantLine : Option String
  discountBadge : Option String
  deriving Repr, DecidableEq

/-- Rendering of a single perk into a card. -/
def renderCard (p : Perk) : Card :=
  { key := p._id,
    link := "/perks/" ++ p._id,
    title := p.title,
    merchantLine :=
      match p.merchant with
      | some m => if m = "" then none else some m
      | none => none,
    discountBadge :=
      if p.discountPercent > 0 then some (toString p.discountPercent ++ "% OFF")
      else none }

/-- The results grid: `perks.map(perk => <Link ...>)`. -/
def renderGrid (ps : List Perk) : List Card := ps.map renderCard

/-- The results-count line:
`Showing {perks.length} perk{perks.length !== 1 ? 's' : ''}`. -/
def countText (n : Nat) : String :=
  "Showing " ++ toString n ++ " perk" ++ (if n ≠ 1 then "s" else "")

/-- Whether the empty-state message is rendered:
`!loading && perks.length === 0`. -/
def emptyStateShown (s : ViewState) : Bool :=
  !s.loading && s.perks.length == 0

/-- Perks used by the concrete rendering example in the specification. -/
def demoPerks : List Perk :=
  [{ _id := "1", title := "A", merchant := some "X", discountPercent := 0 },
   { _id := "2", title := "B", merchant := some "Y", discountPercent := 20 }]

/-- A load result with a duplicated merchant, a whitespace-only merchant and
an absent merchant, used to exercise the merchant derivation. -/
def dirtyPerks : List Perk :=
  [{ _id := "1", title := "A", merchant := some "X", discountPercent := 0 },
   { _id := "2", title := "B", merchant := some " ", discountPercent := 5 },
   { _id := "3", title := "C", merchant := none, discountPercent := 0 },
   { _id := "4", title := "D", merchant := some "X", discountPercent := 1 }]

/-- State of the timer machinery behind the debounce `useEffect`.  Each
`setTimeout` registers a live timer `(id, fire time)` under a fresh id; the
effect's cleanup holds the id of the timer it registered (`delayDebounce`)
and `clearTimeout` cancels it by id if it is still live.  `fired` records,
in order, the deadlines at which a debounce fetch actually ran. -/
structure DebounceState where
  nextId : Nat
  timers : List (Nat × Nat)
  savedId : Option Nat
  fired : List Nat
  deriving Repr, DecidableEq

/-- Before the first debounce-effect run: no timer, no saved cleanup id. -/
def initDebounce : DebounceState := ⟨0, [], none, []⟩

/-- Advance time to `t`: every live timer whose deadline is at or before `t`
fires (its callback runs `loadAllPerks`) and leaves the live set. -/
def fireDue (s : DebounceState) (t : Nat) : DebounceState :=
  { s with timers := s.timers.filter (fun p => t < p.2),
           fired := s.fired ++ (s.timers.filter (fun p => p.2 ≤ t)).map Prod.snd }

/-- `searchQuery` or `merchantFilter` changes at time `t`: timers already due
have fired; React then runs the previous effect's cleanup
(`clearTimeout(delayDebounce)`, cancelling the saved timer if still live)
and the new effect body (`setTimeout(() => loadAllPerks(), 500)`,
registering a fresh timer due at `t + 500`). -/
def debounceChange (s : DebounceState) (t : Nat) : DebounceState :=
  let s' := fireDue s t
  let cleared := match s'.savedId with
    | some i => s'.timers.filter (fun p => p.1 ≠ i)
    | none => s'.timers
  { nextId := s'.nextId + 1,
    timers := cleared ++ [(s'.nextId, t + 500)],
    savedId := some s'.nextId,
    fired := s'.fired }

/-- Run the machine over a sequence of change times. -/
def runDebounce (s : DebounceState) : List Nat → DebounceState
  | [] => s
  | t :: ts => runDebounce (debounceChange s t) ts

/-- Every debounce fetch a change sequence ever causes: those fired during
the sequence plus those still pending at its end, which fire once their
deadline passes. -/
def allFires (ts : List Nat) : List Nat :=
  (runDebounce initDebounce ts).fired ++
    (runDebounce initDebounce ts).timers.map Prod.snd

/-- Reference description of debouncing a change at `t` followed by changes
`ts`: the change at `t` yields a fetch at `t + 500` exactly when no further
change comes strictly before `t + 500`. -/
def expectedFires : Nat → List Nat → List Nat
  | t, [] => [t + 500]
  | t, t' :: ts =>
      if t + 500 ≤ t' then (t + 500) :: expectedFires t' ts
      else expectedFires t' ts

/-- The last change time of a non-empty change sequence `t :: ts`. -/
def lastChange (t : Nat) : List Nat → Nat
  | [] => t
  | t' :: ts => lastChange t' ts

/-- The reachable shapes of the timer machine: either no live timer and no
saved id (only before the first effect run), or exactly one live timer, the
one the pending cleanup holds. -/
def GoodDeb (s : DebounceState) : Prop :=
  (s.timers = [] ∧ s.savedId = none) ∨
  ∃ i ft, s.timers = [(i, ft)] ∧ s.savedId = some i

end AllPerks

namespace AllPerks

/- ### Helper lemmas -/

lemma mem_dedupFirst {α : Type} [DecidableEq α] (a : α) :
    ∀ l : List α, a ∈ dedupFirst l ↔ a ∈ l := by
  intro l
  induction l with
  | nil => simp [dedupFirst]
  | cons x xs ih =>
    by_cases h : a = x
    · subst h; simp [dedupFirst]
    · simp [dedupFirst, h, List.mem_filter, ih]

lemma nodup_dedupFirst {α : Type} [DecidableEq α] :
    ∀ l : List α, (dedupFirst l).Nodup := by
  intro l
  induction l with
  | nil => simp [dedupFirst]
  | cons x xs ih =>
    refine List.Nodup.cons ?_ (ih.filter _)
    intro hmem
    have := (List.mem_filter.mp hmem).2
    simp at this

lemma goodDeb_change (s : DebounceState) (t : Nat) (h : GoodDeb s) :
    GoodDeb (debounceChange s t) := by
  rcases h with ⟨h1, h2⟩ | ⟨i, ft, h1, h2⟩
  · right
    exact ⟨s.nextId, t + 500, by simp [debounceChange, fireDue, h1, h2],
           by simp [debounceChange, fireDue, h1, h2]⟩
  · right
    by_cases hft : t < ft <;>
      exact ⟨s.nextId, t + 500,
        by simp [debounceChange, fireDue, h1, h2, hft],
        by simp [debounceChange, fireDue, h1, h2, hft]⟩

lemma goodDeb_run (ts : List Nat) :
    ∀ s : DebounceState, GoodDeb s → GoodDeb (runDebounce s ts) := by
  induction ts with
  | nil => intro s h; exact h
  | cons t ts ih => intro s h; exact ih _ (goodDeb_change s t h)

lemma runDebounce_single (ts : List Nat) :
    ∀ (n i t : Nat) (acc : List Nat),
      (runDebounce ⟨n, [(i, t + 500)], some i, acc⟩ ts).fired ++
        (runDebounce ⟨n, [(i, t + 500)], some i, acc⟩ ts).timers.map Prod.snd
      = acc ++ expectedFires t ts := by
  induction ts with
  | nil => intro n i t acc; simp [runDebounce, expectedFires]
  | cons t' ts ih =>
    intro n i t acc
    by_cases h : t + 500 ≤ t'
    · have hnot : ¬ t' < t + 500 := not_lt.mpr h
      have hstep : debounceChange ⟨n, [(i, t + 500)], some i, acc⟩ t' =
          ⟨n + 1, [(n, t' + 500)], some n, acc ++ [t + 500]⟩ := by
        simp [debounceChange, fireDue, hnot, h]
      rw [runDebounce, hstep, ih]
      simp [expectedFires, h]
    · have hlt : t' < t + 500 := not_le.mp h
      have hstep : debounceChange ⟨n, [(i, t + 500)], some i, acc⟩ t' =
          ⟨n + 1, [(n, t' + 500)], some n, acc⟩ := by
        simp [debounceChange, fireDue, hlt, h]
      rw [runDebounce, hstep, ih]
      simp [expectedFires, h]

lemma allFires_cons (t : Nat) (ts : List Nat) :
    allFires (t :: ts) = expectedFires t ts := by
  have h0 : debounceChange initDebounce t = ⟨1, [(0, t + 500)], some 0, []⟩ := by
    simp [debounceChange, fireDue, initDebounce]
  unfold allFires
  rw [runDebounce, h0]
  simpa using runDebounce_single ts 1 0 t []

lemma expectedFires_rapid : ∀ (ts : List Nat) (t : Nat),
    List.Chain (fun a b => a ≤ b ∧ b < a + 500) t ts →
    expectedFires t ts = [lastChange t ts + 500] := by
  intro ts
  induction ts with
  | nil => intro t _; simp [expectedFires, lastChange]
  | cons t' ts ih =>
    intro t h
    rw [List.chain_cons] at h
    have h2 : ¬ t + 500 ≤ t' := not_le.mpr h.1.2
    simp only [expectedFires, if_neg h2, lastChange]
    exact ih t' h.2

lemma chain_le_of_mem : ∀ (ts : List Nat) (t c : Nat),
    List.Chain (fun a b : Nat => a ≤ b) t ts → c ∈ ts → t ≤ c := by
  intro ts
  induction ts with
  | nil => intro t c _ hc; simp at hc
  | cons t' ts ih =>
    intro t c h hc
    rw [List.chain_cons] at h
    rcases List.mem_cons.mp hc with rfl | hc
    · exact h.1
    · exact h.1.trans (ih t' c h.2 hc)

lemma expectedFires_sound : ∀ (ts : List Nat) (t : Nat),
    List.Chain (fun a b : Nat => a ≤ b) t ts →
    ∀ f ∈ expectedFires t ts,
      ∃ c, c ∈ t :: ts ∧ f = c + 500 ∧
        ∀ c' ∈ t :: ts, c < c' → c + 500 ≤ c' := by
  intro ts
  induction ts with
  | nil =>
    intro t _ f hf
    simp only [expectedFires, List.mem_singleton] at hf
    subst hf
    refine ⟨t, List.mem_cons_self t [], rfl, ?_⟩
    intro c' hc' hlt
    rcases List.mem_cons.mp hc' with rfl | hc'
    · omega
    · simp at hc'
  | cons t' ts ih =>
    intro t h f hf
    rw [List.chain_cons] at h
    by_cases hle : t + 500 ≤ t'
    · rw [expectedFires, if_pos hle] at hf
      rcases List.mem_cons.mp hf with rfl | hf
      · refine ⟨t, List.mem_cons_self t _, rfl, ?_⟩
        intro c' hc' hlt
        rcases List.mem_cons.mp hc' with rfl | hc'
        · omega
        · rcases List.mem_cons.mp hc' with rfl | hc'
          · exact hle
          · exact hle.trans (chain_le_of_mem ts t' c' h.2 hc')
      · obtain ⟨c, hc, hfc, hafter⟩ := ih t' h.2 f hf
        refine ⟨c, List.mem_cons_of_mem t hc, hfc, ?_⟩
        intro c' hc' hlt
        rcases List.mem_cons.mp hc' with rfl | hc'
        · have : c' ≤ c := by
            rcases List.mem_cons.mp hc with rfl | hc
            · exact h.1
            · exact h.1.trans (chain_le_of_mem ts t' c h.2 hc)
          omega
        · exact hafter c' hc' hlt
    · rw [expectedFires, if_neg hle] at hf
      obtain ⟨c, hc, hfc, hafter⟩ := ih t' h.2 f hf
      refine ⟨c, List.mem_cons_of_mem t hc, hfc, ?_⟩
      intro c' hc' hlt
      rcases List.mem_cons.mp hc' with rfl | hc'
      · have : c' ≤ c := by
          rcases List.mem_cons.mp hc with rfl | hc
          · exact h.1
          · exact h.1.trans (chain_le_of_mem ts t' c h.2 hc)
        omega
      · exact hafter c' hc' hlt

/- ### Claim theorems -/

/-- C1 (code bug): a quiescent mount issues two unfiltered fetches, not
one.  The debounce effect runs on mount as well, and with no input its
500 ms timer is never cancelled, so besides the immediate `initialLoad`
fetch the first render's `loadAllPerks` fires with both filter fields empty
— a second request carrying no filter parameters — contradicting the
source's own comment that perks are loaded once when the page loads. -/
theorem mount_issues_second_unfiltered_fetch :
    mountQuiescentFetches = [initialRequest, initialRequest] ∧
    mountQuiescentFetches.length ≠ 1 ∧
    mountScheduledRequest.search = none ∧
    mountScheduledRequest.merchant = none := by
  refine ⟨?_, by decide, by decide, by decide⟩
  decide

/-- C2 (code bug): the dropdown invariant fails on the mount-scheduled
debounce fetch.  The initial load of `dirtyPerks` derives the merchant set
`["X"]`, but the mount-scheduled `loadAllPerks` closure captured the first
render's `allMerchants = []` (`initState.allMerchants`), so when that fetch
succeeds it runs `setUniqueMerchants([])` and empties the dropdown — the
option set after this fetch is not the initially derived set. -/
theorem stale_closure_empties_dropdown :
    (initialLoadApply initState (.ok dirtyPerks)).uniqueMerchants = ["X"] ∧
    (loadAllPerks initState.allMerchants
        (initialLoadApply initState (.ok dirtyPerks))
        (.ok dirtyPerks)).uniqueMerchants = [] ∧
    (["X"] : List String) ≠ [] := by
  refine ⟨by decide, rfl, by decide⟩

/-- C6: the merchant set derived from a load result contains only names that
are non-empty after trimming, contains no duplicates, contains only
merchants of the returned perks, and contains every non-blank merchant of
the returned perks. -/
theorem deriveMerchants_spec (ps : List Perk) :
    (∀ m ∈ deriveMerchants ps, jsTrim m ≠ "") ∧
    (deriveMerchants ps).Nodup ∧
    (∀ m ∈ deriveMerchants ps, ∃ p ∈ ps, p.merchant = some m) ∧
    (∀ p ∈ ps, ∀ m, p.merchant = some m → jsTrim m ≠ "" →
      m ∈ deriveMerchants ps) := by
  refine ⟨?_, nodup_dedupFirst _, ?_, ?_⟩
  · intro m hm
    have := (List.mem_filter.mp ((mem_dedupFirst m _).mp hm)).2
    simpa using this
  · intro m hm
    have := (List.mem_filter.mp ((mem_dedupFirst m _).mp hm)).1
    obtain ⟨p, hp, hpm⟩ := List.mem_filterMap.mp this
    exact ⟨p, hp, hpm⟩
  · intro p hp m hpm hne
    refine (mem_dedupFirst m _).mpr (List.mem_filter.mpr ⟨?_, by simpa using hne⟩)
    exact List.mem_filterMap.mpr ⟨p, hp, hpm⟩

/-- Witness for C6 at a concrete load result containing a duplicate, a
whitespace-only merchant and an absent merchant. -/
theorem deriveMerchants_spec_witness :
    jsTrim "X" ≠ "" ∧ "X" ∈ deriveMerchants dirtyPerks :=
  ⟨by decide,
   (deriveMerchants_spec dirtyPerks).2.2.2
     { _id := "1", title := "A", merchant := some "X", discountPercent := 0 }
     (by decide) "X" rfl (by decide)⟩

/-- C4: the filtered request carries the trimmed search and merchant values,
and a parameter is omitted (`none`) exactly when its trimmed value is empty. -/
theorem request_params_trimmed_omit_empty (sq mf : String) :
    ((mkRequest sq mf).search = none ↔ jsTrim sq = "") ∧
    (jsTrim sq ≠ "" → (mkRequest sq mf).search = some (jsTrim sq)) ∧
    ((mkRequest sq mf).merchant = none ↔ jsTrim mf = "") ∧
    (jsTrim mf ≠ "" → (mkRequest sq mf).merchant = some (jsTrim mf)) := by
  refine ⟨?_, ?_, ?_, ?_⟩ <;> simp only [mkRequest] <;> split <;> simp_all

/-- Witness for C4 at concrete inputs: a padded search value is sent trimmed
and a whitespace-only merchant value is omitted. -/
theorem request_params_trimmed_omit_empty_witness :
    jsTrim " a " ≠ "" ∧
    (mkRequest " a " "  ").search = some (jsTrim " a ") ∧
    (mkRequest " a " "  ").merchant = none :=
  ⟨by decide,
   (request_params_trimmed_omit_empty " a " "  ").2.1 (by decide),
   ((request_params_trimmed_omit_empty " a " "  ").2.2.1).mpr (by decide)⟩

/-- C5 counterexample: a present but empty server message.  JS `||`
treats it as falsy, so the code displays the fixed fallback, not the
provided message `""` — the claim as stated fails at this input. -/
theorem empty_server_message_shows_fallback :
    (loadAllPerks [] initState (.error ⟨some ""⟩)).error = "Failed to load perks" ∧
    (initialLoadApply initState (.error ⟨some ""⟩)).error = "Failed to load perks" ∧
    ("Failed to load perks" : String) ≠ "" :=
  ⟨rfl, rfl, by decide⟩

/-- C5 as amended: every fetch failure, initial or filtered and whatever
merchant closure the run captured, ends with the displayed error string
equal to the server-provided message when that message is present and
non-empty, and to the fixed fallback when it is absent or empty (JS
falsiness); the loading indicator is stopped, and the view still responds
to a form submission exactly as before (no fatal state). -/
theorem fetch_failure_error_handling :
    (∀ (s : ViewState) (cap : List String) (m : String), m ≠ "" →
        (loadAllPerks cap s (.error ⟨some m⟩)).error = m ∧
        (initialLoadApply s (.error ⟨some m⟩)).error = m) ∧
    (∀ (s : ViewState) (cap : List String),
        (loadAllPerks cap s (.error ⟨some ""⟩)).error = "Failed to load perks" ∧
        (loadAllPerks cap s (.error ⟨none⟩)).error = "Failed to load perks" ∧
        (initialLoadApply s (.error ⟨some ""⟩)).error = "Failed to load perks" ∧
        (initialLoadApply s (.error ⟨none⟩)).error = "Failed to load perks") ∧
    (∀ (s : ViewState) (cap : List String) (e : ErrResp),
        (loadAllPerks cap s (.error e)).loading = false ∧
        (initialLoadApply s (.error e)).loading = false ∧
        handleSearchEffects (loadAllPerks cap s (.error e)) =
          [.fetchNow (loadAllPerksRequest (loadAllPerks cap s (.error e)))]) := by
  refine ⟨?_, ?_, ?_⟩
  · intro s cap m hm
    constructor <;> simp [loadAllPerks, loadStart, loadComplete, initialLoadApply, jsOrElse, hm]
  · intro s cap
    exact ⟨rfl, rfl, rfl, rfl⟩
  · intro s cap e
    exact ⟨rfl, rfl, rfl⟩

/-- Witness for C5 as amended: a non-empty server message is displayed
verbatim after a filtered-fetch failure. -/
theorem fetch_failure_error_handling_witness :
    ("boom" : String) ≠ "" ∧
    (loadAllPerks [] initState (.error ⟨some "boom"⟩)).error = "boom" :=
  ⟨by decide, (fetch_failure_error_handling.1 initState [] "boom" (by decide)).1⟩

/-- C7: submitting the search form fetches immediately with the request
built from the current field values; a filter change by itself performs no
immediate fetch (it only schedules the debounce timer). -/
theorem search_now_immediate (s : ViewState) :
    handleSearchEffects s = [.fetchNow (mkRequest s.searchQuery s.merchantFilter)] ∧
    immediateFetches (handleSearchEffects s) =
      [mkRequest s.searchQuery s.merchantFilter] ∧
    immediateFetches debounceChangeEffects = [] :=
  ⟨rfl, rfl, rfl⟩

/-- C8: Reset Filters clears both filter fields, restores the dropdown to
the stored full merchant set, leaves the displayed perks alone, and issues
no fetch of its own. -/
theorem reset_clears_filters_no_fetch (s : ViewState) :
    (handleReset s).searchQuery = "" ∧
    (handleReset s).merchantFilter = "" ∧
    (handleReset s).uniqueMerchants = s.allMerchants ∧
    (handleReset s).perks = s.perks ∧
    handleResetEffects = ([] : List Effect) ∧
    immediateFetches handleResetEffects = [] :=
  ⟨rfl, rfl, rfl, rfl, rfl, rfl⟩

/-- C9: on the two specification perks the grid renders two cards, the first
without and the second with a discount badge reading `20% OFF`, the count
line reads `Showing 2 perks`; in general a card carries a badge iff its
perk's `discountPercent` is positive. -/
theorem render_concrete_grid :
    (renderGrid demoPerks).length = 2 ∧
    (renderGrid demoPerks).map Card.discountBadge = [none, some "20% OFF"] ∧
    countText demoPerks.length = "Showing 2 perks" ∧
    ∀ p : Perk, ((renderCard p).discountBadge).isSome ↔ 0 < p.discountPercent := by
  refine ⟨rfl, by decide, by decide, ?_⟩
  intro p
  by_cases h : 0 < p.discountPercent <;> simp [renderCard, h]

/-- C3: for every sequence of filter changes, (i) at most one debounce timer
is ever pending; (ii) a change arriving before the pending timer's deadline
cancels it and schedules a fresh timer due 500 ms later, firing nothing;
(iii) a run of changes each within 500 ms of the previous collapses to the
single fetch at `last change + 500`; and (iv) every debounce fetch happens
at `c + 500` for a change time `c` followed by no further change strictly
within 500 ms. -/
theorem debounce_spec :
    (∀ ts : List Nat, (runDebounce initDebounce ts).timers.length ≤ 1) ∧
    (∀ (s : DebounceState) (t i ft : Nat),
        s.timers = [(i, ft)] → s.savedId = some i → t < ft →
        (debounceChange s t).timers = [(s.nextId, t + 500)] ∧
        (debounceChange s t).fired = s.fired) ∧
    (∀ (t : Nat) (ts : List Nat),
        List.Chain (fun a b => a ≤ b ∧ b < a + 500) t ts →
        allFires (t :: ts) = [lastChange t ts + 500]) ∧
    (∀ (t : Nat) (ts : List Nat),
        List.Chain (fun a b : Nat => a ≤ b) t ts →
        ∀ f ∈ allFires (t :: ts),
          ∃ c, c ∈ t :: ts ∧ f = c + 500 ∧
            ∀ c' ∈ t :: ts, c < c' → c + 500 ≤ c') := by
  refine ⟨?_, ?_, ?_, ?_⟩
  · intro ts
    have h := goodDeb_run ts initDebounce (Or.inl ⟨rfl, rfl⟩)
    rcases h with ⟨h1, _⟩ | ⟨i, ft, h1, _⟩ <;> simp [h1]
  · intro s t i ft h1 h2 hlt
    constructor <;> simp [debounceChange, fireDue, h1, h2, hlt]
  · intro t ts h
    rw [allFires_cons]
    exact expectedFires_rapid ts t h
  · intro t ts h f hf
    rw [allFires_cons] at hf
    exact expectedFires_sound ts t h f hf

/-- Witness for C3: two changes at times 0 and 300 (300 ms apart), ending
with one pending timer, the first timer cancelled, and one single fetch at
time 800. -/
theorem debounce_spec_witness :
    (runDebounce initDebounce [0, 300]).timers.length ≤ 1 ∧
    (debounceChange ⟨1, [(0, 500)], some 0, []⟩ 300).timers = [(1, 800)] ∧
    allFires [0, 300] = [800] ∧
    ∃ c, c ∈ [0, 300] ∧ (800 : Nat) = c + 500 ∧
      ∀ c' ∈ [(0 : Nat), 300], c < c' → c + 500 ≤ c' := by
  refine ⟨debounce_spec.1 [0, 300],
    (debounce_spec.2.1 ⟨1, [(0, 500)], some 0, []⟩ 300 0 500 rfl rfl
      (by decide)).1,
    ?_, ?_⟩
  · have h := debounce_spec.2.2.1 0 [300]
      (List.Chain.cons (by omega) List.Chain.nil)
    simpa [lastChange] using h
  · have h800 : (800 : Nat) ∈ allFires [0, 300] := by decide
    exact debounce_spec.2.2.2 0 [300]
      (List.Chain.cons (by omega) List.Chain.nil) 800 h800

/-- C10: on a fetch failure, initial or filtered and whatever merchant
closure the run captured, the displayed perks, both merchant lists and both
filter fields are exactly what they were before the fetch. -/
theorem failure_preserves_lists (s : ViewState) (cap : List String) (e : ErrResp) :
    ((loadAllPerks cap s (.error e)).perks = s.perks ∧
     (loadAllPerks cap s (.error e)).uniqueMerchants = s.uniqueMerchants ∧
     (loadAllPerks cap s (.error e)).allMerchants = s.allMerchants ∧
     (loadAllPerks cap s (.error e)).searchQuery = s.searchQuery ∧
     (loadAllPerks cap s (.error e)).merchantFilter = s.merchantFilter) ∧
    ((initialLoadApply s (.error e)).perks = s.perks ∧
     (initialLoadApply s (.error e)).uniqueMerchants = s.uniqueMerchants ∧
     (initialLoadApply s (.error e)).allMerchants = s.allMerchants ∧
     (initialLoadApply s (.error e)).searchQuery = s.searchQuery ∧
     (initialLoadApply s (.error e)).merchantFilter = s.merchantFilter) :=
  ⟨⟨rfl, rfl, rfl, rfl, rfl⟩, ⟨rfl, rfl, rfl, rfl, rfl⟩⟩

end AllPerks
